import Mathlib

/-!
Verification of the reference/borrowing demonstration program (src/src/main.rs).

The program is a single straight-line `main` plus three helpers:
`calculate_length`, `change` and `no_dangle`.  Text buffers (Rust `String`)
are embedded as Lean `String`; `push_str` is string append; a call through a
shared borrow is a pure function call that also hands the buffer back to the
owner; the borrow-checker facts (which views are live at which program point)
are embedded as an explicit trace of active-borrow sets derived from the
source with last-use (non-lexical) live ranges.
-/

namespace References

/-- A single-quote character, used in the formatted length line. -/
def sq : String := String.singleton (Char.ofNat 39)

/-- Embeds `String::push_str`: the in-place growth of the buffer is modeled
    by returning the grown buffer. -/
def push_str (s suffix : String) : String := s ++ suffix

/-- Embeds `fn calculate_length(s: &String) -> usize { s.len() }`.
    Rust `String::len` returns the UTF-8 byte length of the buffer, so the
    embedding uses the byte size, not the character count. -/
def calculate_length (s : String) : Nat := s.utf8ByteSize

/-- Embeds `fn change(some_string: &mut String) { some_string.push_str(", world"); }`.
    The in-place effect through the exclusive borrow is modeled by state
    passing: the result is the buffer content after the call. -/
def change (some_string : String) : String := push_str some_string ", world"

/-- Embeds `fn no_dangle() -> String { let s = String::from("Hello"); s }`. -/
def no_dangle : String :=
  let s : String := "Hello"
  s

/-- A call through a shared (read-only) borrow: the callee receives read
    access, computes a result, and the owner keeps the buffer.  The callee
    is a pure function, since a `&String` parameter admits no mutation. -/
def callByRef {α : Type} (f : String → α) (s : String) : α × String := (f s, s)

/-- Reading through a reference yields the referent's current value. -/
def deref (s : String) : String := s

/- Buffers of `main`, in allocation order (the source shadows the name `s`
   repeatedly; here each gets its own name). -/

/-- `let s1 = String::from("Hello")` (line 9). -/
def main_s1 : String := "Hello"

/-- `let len = calculate_length(&s1)` (line 11), a call through a shared borrow. -/
def main_len : Nat := (callByRef calculate_length main_s1).1

/-- The buffer `s1` as the owner sees it after the borrowing call (line 16). -/
def main_s1_after : String := (callByRef calculate_length main_s1).2

/-- `let mut s = String::from("Hello")` (line 18). -/
def main_sa : String := "Hello"

/-- `s` after `change(&mut s)` (line 24): the mutation observed by the owner. -/
def main_sa_after : String := change main_sa

/-- `let mut s = String::from("Hello")` (line 32). -/
def main_sb : String := "Hello"

/-- The value printed through `r1 = &mut s` (lines 34 and 40). -/
def main_rb1 : String := deref main_sb

/-- `let mut s = String::from("Hello")` (line 46). -/
def main_sc : String := "Hello"

/-- The value printed through the inner-scope `r1 = &mut s` (lines 49 and 50). -/
def main_rc1 : String := deref main_sc

/-- The value printed through `r2 = &mut s` (lines 55 and 56). -/
def main_rc2 : String := deref main_sc

/-- `let mut s = String::from("Hello")` (line 59). -/
def main_sd : String := "Hello"

/-- The value read through the shared view `r1 = &s` (lines 61 and 70). -/
def main_rd1 : String := deref main_sd

/-- The value read through the shared view `r2 = &s` (lines 62 and 70). -/
def main_rd2 : String := deref main_sd

/-- The value read through `r3 = &mut s` (lines 75 and 76). -/
def main_rd3 : String := deref main_sd

/-- `let reference_to_something = no_dangle()` (line 85). -/
def main_reference_to_something : String := no_dangle

/-- The formatted second output line,
    `println!("The length of '{}' is {}", s1, len)`. -/
def lenLine : String :=
  "The length of " ++ sq ++ main_s1 ++ sq ++ " is " ++ toString main_len

/-- The standard-output lines produced by `main`, in order (lines 5, 16, 26,
    40, 50, 56, 70, 76, 87 of the source). -/
def mainOutput : List String :=
  [ "Hello, World!"
  , lenLine
  , main_sa_after
  , main_rb1
  , main_rc1
  , main_rc2
  , "r1=" ++ main_rd1 ++ " and r2=" ++ main_rd2
  , "r3=" ++ main_rd3
  , "reference_to_something=" ++ main_reference_to_something
  ]

/-- `main` as a function of the outside world (standard input): the program
    performs no reads, so the body never consults its argument.  Used to
    state determinism. -/
def mainWithInput (_stdin : List String) : List String := mainOutput

/-- An executed statement of `main` that is observable on standard output.
    The commented-out violation scenarios in the source are not statements
    and do not appear here. -/
inductive Stmt : Type
| print : String → Stmt

/-- One execution step: appends the printed line to the output so far.  The
    result is `Except`-valued so that completing without an error is a
    statement, not a typing accident. -/
def execStmt (out : List String) : Stmt → Except String (List String)
| Stmt.print s => Except.ok (out ++ [s])

/-- The executed statement sequence of `main`, top to bottom. -/
def mainStmts : List Stmt :=
  [ Stmt.print "Hello, World!"
  , Stmt.print lenLine
  , Stmt.print main_sa_after
  , Stmt.print main_rb1
  , Stmt.print main_rc1
  , Stmt.print main_rc2
  , Stmt.print ("r1=" ++ main_rd1 ++ " and r2=" ++ main_rd2)
  , Stmt.print ("r3=" ++ main_rd3)
  , Stmt.print ("reference_to_something=" ++ main_reference_to_something)
  ]

/-- Running `main` to completion: folding the statement list from the empty
    output.  `Except.error` would signal a runtime failure. -/
def mainRunE : Except String (List String) := mainStmts.foldlM execStmt []

/-- Kind of a non-owning view of a buffer. -/
inductive BKind : Type
| shared : BKind
| excl : BKind
deriving DecidableEq, BEq

/-- An active borrow: which buffer it views, and with which access kind.
    Buffers are numbered in allocation order: 0 is `s1` (line 9), 1 is `s`
    of line 18, 2 is `s` of line 32, 3 is `s` of line 46, 4 is `s` of
    line 59. -/
structure Borrow : Type where
  buf : Nat
  kind : BKind
deriving DecidableEq, BEq

/-- Two borrows violate exclusivity (invariant I1) when both are exclusive
    views of the same buffer. -/
def exclConflict (a b : Borrow) : Bool :=
  a.buf == b.buf && a.kind == BKind.excl && b.kind == BKind.excl

/-- Two borrows violate the mixing rule (invariant I2) when they view the
    same buffer and exactly one of them is exclusive. -/
def mixConflict (a b : Borrow) : Bool :=
  a.buf == b.buf &&
    ((a.kind == BKind.excl && b.kind == BKind.shared) ||
     (a.kind == BKind.shared && b.kind == BKind.excl))

/-- No two distinct active borrows of the set are in `exclConflict`. -/
def pointOkI1 : List Borrow → Bool
| [] => true
| a :: rest => rest.all (fun b => !exclConflict a b) && pointOkI1 rest

/-- No two distinct active borrows of the set are in `mixConflict`. -/
def pointOkI2 : List Borrow → Bool
| [] => true
| a :: rest => rest.all (fun b => !mixConflict a b) && pointOkI2 rest

/-- The set of live borrows at each executed program point of `main`, in
    source order, with live ranges ending at last use (the checker's
    non-lexical lifetimes):
    line 5 print; line 9 alloc; line 11 shared borrow of buffer 0 during the
    call; line 16 print (borrow 0 dead); line 18 alloc; line 24 exclusive
    borrow of buffer 1 during the call; line 26 print; line 32 alloc;
    lines 34 and 40 exclusive borrow of buffer 2; line 46 alloc; lines 49
    and 50 inner exclusive borrow of buffer 3; lines 55 and 56 second
    exclusive borrow of buffer 3 (the first is dead); line 59 alloc;
    lines 61, 62 and 70 two shared borrows of buffer 4; lines 75 and 76
    exclusive borrow of buffer 4 (the shared ones are dead after line 70);
    lines 85 and 87 no borrows. -/
def mainBorrowTrace : List (List Borrow) :=
  [ []                                                        -- line 5
  , []                                                        -- line 9
  , [⟨0, BKind.shared⟩]                                       -- line 11
  , []                                                        -- line 16
  , []                                                        -- line 18
  , [⟨1, BKind.excl⟩]                                         -- line 24
  , []                                                        -- line 26
  , []                                                        -- line 32
  , [⟨2, BKind.excl⟩]                                         -- line 34
  , [⟨2, BKind.excl⟩]                                         -- line 40
  , []                                                        -- line 46
  , [⟨3, BKind.excl⟩]                                         -- line 49
  , [⟨3, BKind.excl⟩]                                         -- line 50
  , [⟨3, BKind.excl⟩]                                         -- line 55
  , [⟨3, BKind.excl⟩]                                         -- line 56
  , []                                                        -- line 59
  , [⟨4, BKind.shared⟩]                                       -- line 61
  , [⟨4, BKind.shared⟩, ⟨4, BKind.shared⟩]                    -- line 62
  , [⟨4, BKind.shared⟩, ⟨4, BKind.shared⟩]                    -- line 70
  , [⟨4, BKind.excl⟩]                                         -- line 75
  , [⟨4, BKind.excl⟩]                                         -- line 76
  , []                                                        -- line 85
  , []                                                        -- line 87
  ]

end References

open References

/-- A character in the ASCII range occupies exactly one UTF-8 byte. -/
theorem utf8Size_eq_one_of_ascii (c : Char) (h : c.toNat ≤ 127) : c.utf8Size = 1 := by
  have hv : c.val ≤ UInt32.ofNatCore 127 (by decide) := h
  unfold Char.utf8Size
  rw [if_pos hv]

/-- A list of ASCII characters has as many UTF-8 bytes as characters. -/
theorem utf8Len_eq_length_of_ascii (cs : List Char) (h : ∀ c ∈ cs, c.toNat ≤ 127) :
    String.utf8Len cs = cs.length := by
  induction cs with
  | nil => rfl
  | cons c cs ih =>
    rw [String.utf8Len_cons, utf8Size_eq_one_of_ascii c (h c (List.mem_cons_self c cs)),
      List.length_cons, ih (fun d hd => h d (List.mem_cons_of_mem c hd))]

/-- C1: running the program produces exactly these nine lines on standard
    output, in this order, with the length substituted by the computed
    character count and the buffer contents substituted as mutated. -/
theorem claim_C1_output_lines :
    mainOutput =
      [ "Hello, World!"
      , "The length of " ++ sq ++ "Hello" ++ sq ++ " is 5"
      , "Hello, world"
      , "Hello"
      , "Hello"
      , "Hello"
      , "r1=Hello and r2=Hello"
      , "r3=Hello"
      , "reference_to_something=Hello"
      ] := by
  decide

/-- C2: for every buffer `s`, `change` on an exclusive view of `s` appends
    the fixed suffix ", world", so that afterwards the content equals the
    prior content concatenated with ", world"; the mutation is what the
    owner observes after the call; for input "Hello" the final content is
    "Hello, world". -/
theorem claim_C2_change_appends :
    (∀ s : String, change s = s ++ ", world") ∧
      main_sa_after = main_sa ++ ", world" ∧
      main_sa_after = "Hello, world" := by
  refine ⟨fun s => rfl, rfl, by decide⟩

/-- C3 (counterexample): `calculate_length` does not return the number of
    characters for every buffer.  On the one-character buffer "é" the
    source's byte-length computation returns 2, not the character count 1. -/
theorem claim_C3_counterexample :
    calculate_length "é" = 2 ∧ ("é" : String).data.length = 1 ∧
      calculate_length "é" ≠ ("é" : String).data.length := by
  decide

/-- C3 (amended): `calculate_length`, given a shared view of a buffer,
    returns the UTF-8 byte length of the buffer's content, as a
    non-negative integer; for a buffer whose characters are all ASCII this
    equals the number of characters, and for the literal "Hello" it
    returns exactly 5. -/
theorem claim_C3_length_amended :
    (∀ s : String, calculate_length s = s.utf8ByteSize) ∧
      (∀ s : String, (∀ c ∈ s.data, c.toNat ≤ 127) →
        calculate_length s = s.data.length) ∧
      calculate_length "Hello" = 5 ∧ main_len = 5 := by
  refine ⟨fun s => rfl, fun s h => ?_, by decide, by decide⟩
  obtain ⟨cs⟩ := s
  exact utf8Len_eq_length_of_ascii cs h

/-- Witness for the amended C3: the literal "Hello" is all-ASCII and the
    amended theorem evaluates on it to the character count 5. -/
theorem claim_C3_length_amended_witness :
    (∀ c ∈ ("Hello" : String).data, c.toNat ≤ 127) ∧
      calculate_length "Hello" = ("Hello" : String).data.length ∧
      calculate_length "Hello" = 5 :=
  ⟨by decide, claim_C3_length_amended.2.1 "Hello" (by decide),
    claim_C3_length_amended.2.2.1⟩

/-- C4: `calculate_length` has no side effects: after a call through a
    shared borrow the buffer's content is unchanged and remains with its
    owner; in the program, `s1` is still "Hello" afterwards. -/
theorem claim_C4_length_no_side_effect :
    (∀ s : String, (callByRef calculate_length s).2 = s) ∧
      main_s1_after = main_s1 ∧ main_s1_after = "Hello" := by
  refine ⟨fun s => rfl, rfl, by decide⟩

/-- C5: `no_dangle` builds a buffer locally and returns it by ownership
    transfer; the value the caller receives has the constructed content
    "Hello". -/
theorem claim_C5_no_dangle_returns_hello :
    no_dangle = "Hello" ∧ main_reference_to_something = "Hello" := by
  exact ⟨rfl, rfl⟩

/-- C6: the two shared views `r1` and `r2` of the same unmutated buffer,
    both read before any exclusive view of that buffer exists, observe
    identical content, equal to the buffer's value before either view
    existed, namely "Hello". -/
theorem claim_C6_shared_views_agree :
    main_rd1 = main_rd2 ∧ main_rd1 = main_sd ∧ main_rd2 = main_sd ∧
      main_sd = "Hello" := by
  exact ⟨rfl, rfl, rfl, rfl⟩

/-- C7: the program always runs to completion successfully: executing the
    statement sequence of `main` from an empty output never reaches an
    error and yields exactly the nine output lines; the invalid-access
    scenarios are comments and contribute no statement. -/
theorem claim_C7_runs_to_completion :
    mainRunE = Except.ok mainOutput ∧ mainOutput.length = 9 := by
  exact ⟨rfl, rfl⟩

/-- C8: at every executed program point of `main`, no two exclusive views
    of the same buffer are simultaneously live (I1), and no exclusive view
    is live together with a shared view of the same buffer (I2). -/
theorem claim_C8_borrow_invariants :
    mainBorrowTrace.all (fun bs => pointOkI1 bs && pointOkI2 bs) = true := by
  decide

/-- C9: the program is deterministic: it reads nothing from its input, and
    any two executions produce identical standard-output text. -/
theorem claim_C9_deterministic :
    ∀ stdin₁ stdin₂ : List String,
      mainWithInput stdin₁ = mainWithInput stdin₂ := by
  intro _ _
  rfl

/-- C10: applying `change` and then `calculate_length` yields exactly the
    original `calculate_length` plus 7, the length of the suffix ", world". -/
theorem claim_C10_change_adds_seven :
    ∀ s : String, calculate_length (change s) = calculate_length s + 7 := by
  intro s
  obtain ⟨cs⟩ := s
  show String.utf8ByteSize ⟨cs ++ (", world").data⟩ =
    String.utf8ByteSize ⟨cs⟩ + 7
  rw [String.utf8ByteSize_mk, String.utf8ByteSize_mk, String.utf8Len_append]
  rfl
